import Mathlib

/-!
Verification of the EHR access layer of the prosper scheduling assistant.

The Python sources are shallowly embedded: pure helpers become Lean
functions, stateful transports become explicit state passing, exceptions
become `Except` values over an explicit exception type, and the remote
system (HTTP endpoint, browser UI) becomes an explicit environment value
supplied to each operation.
-/

namespace Prosper

/-- Calendar date (models Python `datetime.date` as a plain year/month/day triple). -/
structure Date where
  year : Nat
  month : Nat
  day : Nat
deriving DecidableEq, Repr

/-- Wall-clock time (models Python `datetime.time` at the minute precision the app uses). -/
structure Time where
  hour : Nat
  minute : Nat
deriving DecidableEq, Repr

/-- `prosper.domain.models.AppointmentStatus`. -/
inductive AppointmentStatus where
  | scheduled
  | cancelled
deriving DecidableEq, Repr

/-- `prosper.domain.models.Patient`. -/
structure Patient where
  patient_id : String
  first_name : String
  last_name : String
  date_of_birth : Option Date := none
deriving DecidableEq, Repr

/-- `prosper.domain.models.AppointmentRequest`. -/
structure AppointmentRequest where
  patient_id : String
  date : Date
  time : Time
deriving DecidableEq, Repr

/-- `prosper.domain.models.Appointment`. -/
structure Appointment where
  appointment_id : String
  patient_id : String
  date : Option Date := none
  time : Option Time := none
  status : AppointmentStatus := .scheduled
deriving DecidableEq, Repr

/-- Python exception values crossing the transport/service boundary:
the three taxonomy errors of `prosper.domain.exceptions`, plus `other`
standing for any non-taxonomy exception (RuntimeError, TypeError, ...),
carrying its `str()` rendering. -/
inductive PyExc where
  | ehrUnavailable (msg : String)
  | appointmentCreationError (reason : String) (patient_id : Option String)
  | appointmentCancellationError (reason : String) (appointment_id : Option String)
  | other (msg : String)
deriving DecidableEq, Repr

/-- `str(exc)`: the taxonomy errors build their message in `super().__init__`;
`EHRUnavailableError` and non-taxonomy exceptions render their own message. -/
def PyExc.str : PyExc → String
  | .ehrUnavailable m => m
  | .appointmentCreationError r _ => "Failed to create appointment: " ++ r
  | .appointmentCancellationError r _ => "Failed to cancel appointment: " ++ r
  | .other m => m

/-- Membership in the closed error taxonomy of `prosper.domain.exceptions`. -/
def PyExc.inTaxonomy : PyExc → Bool
  | .other _ => false
  | _ => true

namespace EHRService

/-- `EHRService.find_patient` (src/prosper/ehr/service.py, lines 20-39), with the
transport's `search_patients` supplied as a function.  `EHRUnavailableError`
is re-raised as is; any other exception is wrapped; a non-None DOB filters by
equality (`dt.date` values are always truthy in Python, so `if date_of_birth:`
is exactly the None test). -/
def find_patient (search_patients : String → Except PyExc (List Patient))
    (name : String) (date_of_birth : Option Date) : Except PyExc (List Patient) :=
  match search_patients name with
  | .error (.ehrUnavailable m) => .error (.ehrUnavailable m)
  | .error e => .error (.ehrUnavailable ("Patient search failed: " ++ e.str))
  | .ok patients =>
      match date_of_birth with
      | none => .ok patients
      | some dob => .ok (patients.filter (fun p => p.date_of_birth == some dob))

/-- `EHRService.create_appointment` (service.py, lines 41-57): re-raises
`AppointmentCreationError` and `EHRUnavailableError`; rewraps anything else
into `AppointmentCreationError(reason=str(exc), patient_id=request.patient_id)`. -/
def create_appointment (client_create : AppointmentRequest → Except PyExc Appointment)
    (request : AppointmentRequest) : Except PyExc Appointment :=
  match client_create request with
  | .ok a => .ok a
  | .error (.appointmentCreationError r p) => .error (.appointmentCreationError r p)
  | .error (.ehrUnavailable m) => .error (.ehrUnavailable m)
  | .error e => .error (.appointmentCreationError e.str (some request.patient_id))

/-- `EHRService.cancel_appointment` (service.py, lines 59-73): re-raises
`AppointmentCancellationError` and `EHRUnavailableError`; rewraps anything else
into `AppointmentCancellationError(reason=str(exc), appointment_id=appointment_id)`. -/
def cancel_appointment (client_cancel : String → Except PyExc Appointment)
    (appointment_id : String) : Except PyExc Appointment :=
  match client_cancel appointment_id with
  | .ok a => .ok a
  | .error (.appointmentCancellationError r p) => .error (.appointmentCancellationError r p)
  | .error (.ehrUnavailable m) => .error (.ehrUnavailable m)
  | .error e => .error (.appointmentCancellationError e.str (some appointment_id))

end EHRService

/-- Month names as produced by `date.strftime(%B)`. -/
def monthNameLong (m : Nat) : String :=
  match m with
  | 1 => "January"
  | 2 => "February"
  | 3 => "March"
  | 4 => "April"
  | 5 => "May"
  | 6 => "June"
  | 7 => "July"
  | 8 => "August"
  | 9 => "September"
  | 10 => "October"
  | 11 => "November"
  | 12 => "December"
  | _ => ""

/-- Abbreviated month names as produced by `date.strftime(%b)`. -/
def monthNameShort (m : Nat) : String :=
  match m with
  | 1 => "Jan"
  | 2 => "Feb"
  | 3 => "Mar"
  | 4 => "Apr"
  | 5 => "May"
  | 6 => "Jun"
  | 7 => "Jul"
  | 8 => "Aug"
  | 9 => "Sep"
  | 10 => "Oct"
  | 11 => "Nov"
  | 12 => "Dec"
  | _ => ""

/-- Two-digit zero padding, as in `strftime(%M)`. -/
def pad2 (n : Nat) : String :=
  if n < 10 then "0" ++ toString n else toString n

/-- `date_to_us_long` (src/prosper/ehr/adapters/datetime_helpers.py, lines 7-9). -/
def date_to_us_long (date : Date) : String :=
  monthNameLong date.month ++ " " ++ toString date.day ++ ", " ++ toString date.year

/-- `time_to_12h` (datetime_helpers.py, lines 12-20).  Python's
`time.hour % 12 or 12` yields 12 exactly when the remainder is 0. -/
def time_to_12h (time : Time) : String :=
  let hour := if time.hour % 12 == 0 then 12 else time.hour % 12
  let period := if time.hour < 12 then "AM" else "PM"
  toString hour ++ ":" ++ pad2 time.minute ++ " " ++ period

/-- `_date_to_short` (src/prosper/ehr/adapters/playwright.py, lines 51-53). -/
def _date_to_short (date : Date) : String :=
  monthNameShort date.month ++ " " ++ toString date.day ++ ", " ++ toString date.year

/-- Timezone objects the code can hold: `ZoneInfo(name)` or `dt.timezone.utc`. -/
inductive TZInfo where
  | utc
  | zoneinfo (name : String)
deriving DecidableEq, Repr

/-- `resolve_timezone` (datetime_helpers.py, lines 23-29).  `ZoneInfo(name)`
raises for a name absent from the IANA database; the database is external
state, so it enters as the predicate `isValidZone`.  The `except` clause maps
every such failure to `dt.timezone.utc`. -/
def resolve_timezone (isValidZone : String → Bool) (name : String) : TZInfo :=
  if isValidZone name then .zoneinfo name else .utc

/-- Gregorian leap-year rule used by `datetime.date`. -/
def isLeapYear (y : Nat) : Bool :=
  y % 4 == 0 && (y % 100 != 0 || y % 400 == 0)

/-- Days in a month, as validated by the `datetime.date` constructor. -/
def daysInMonth (y m : Nat) : Nat :=
  if m == 2 then (if isLeapYear y then 29 else 28)
  else if m == 4 || m == 6 || m == 9 || m == 11 then 30
  else 31

/-- The validity check performed by the `datetime.date(year, month, day)`
constructor: year in 1..9999, month in 1..12, day in 1..daysInMonth. -/
def validDate (y m d : Nat) : Bool :=
  1 ≤ y && y ≤ 9999 && 1 ≤ m && m ≤ 12 && 1 ≤ d && d ≤ daysInMonth y m

/-- `datetime.date(y, m, d)`: `some` a date when valid, `none` standing for the
`ValueError` the constructor raises otherwise. -/
def mkValidDate (y m d : Nat) : Option Date :=
  if validDate y m d then some ⟨y, m, d⟩ else none

/-- Numeric value of a digit string, most significant first. -/
def digitsToNat (cs : List Char) : Nat :=
  cs.foldl (fun a c => a * 10 + (c.toNat - 48)) 0

/-- `datetime.date.fromisoformat` on its canonical `YYYY-MM-DD` form (the form
the Healthie API and the tool schema supply): `none` stands for the
`ValueError` raised on a malformed string or a non-calendar date. -/
def dateFromIsoformat (s : String) : Option Date :=
  match s.data with
  | [y1, y2, y3, y4, '-', m1, m2, '-', d1, d2] =>
      if [y1, y2, y3, y4, m1, m2, d1, d2].all Char.isDigit then
        mkValidDate (digitsToNat [y1, y2, y3, y4]) (digitsToNat [m1, m2])
          (digitsToNat [d1, d2])
      else none
  | _ => none

/-- `datetime.time.fromisoformat` on the `HH:MM` form the tool schema
prescribes: `none` stands for the `ValueError` on malformed input. -/
def timeFromIsoformat (s : String) : Option Time :=
  match s.data with
  | [h1, h2, ':', m1, m2] =>
      if [h1, h2, m1, m2].all Char.isDigit then
        let h := digitsToNat [h1, h2]
        let m := digitsToNat [m1, m2]
        if h ≤ 23 && m ≤ 59 then some ⟨h, m⟩ else none
      else none
  | _ => none

/-- ASCII letter, the character class `[A-Za-z]`. -/
def isAsciiAlpha (c : Char) : Bool :=
  ('A' ≤ c && c ≤ 'Z') || ('a' ≤ c && c ≤ 'z')

/-- The character class `[A-Za-z\- ]` of the name-tail in `parse_name_dob`. -/
def isNameTailChar (c : Char) : Bool :=
  isAsciiAlpha c || c == '-' || c == ' '

/-- Python regex `\s` on ASCII text. -/
def isPyWhitespace (c : Char) : Bool :=
  c == ' ' || c == '\t' || c == '\n' || c == '\r' || c == '\x0b' || c == '\x0c'

/-- Greedy `\d{1,2}` followed by a required non-digit: take up to two digits.
Backtracking cannot help the surrounding pattern (the follower `/` is not a
digit), so the greedy take is exact. -/
def takeDigitsUpTo2 : List Char → Option (Nat × List Char)
  | c :: rest =>
      if c.isDigit then
        match rest with
        | c2 :: rest2 =>
            if c2.isDigit then
              some ((c.toNat - 48) * 10 + (c2.toNat - 48), rest2)
            else
              some (c.toNat - 48, rest)
        | [] => some (c.toNat - 48, [])
      else none
  | [] => none

/-- Exactly `\d{4}`. -/
def takeDigits4 : List Char → Option (Nat × List Char)
  | a :: b :: c :: d :: rest =>
      if a.isDigit && b.isDigit && c.isDigit && d.isDigit then
        some ((((a.toNat - 48) * 10 + (b.toNat - 48)) * 10 + (c.toNat - 48)) * 10
          + (d.toNat - 48), rest)
      else none
  | _ => none

/-- The suffix `\s*\((\d{1,2})/(\d{1,2})/(\d{4})\)` of the `parse_name_dob`
pattern; returns the captured (month, day, year). -/
def matchDatePart (cs : List Char) : Option (Nat × Nat × Nat) :=
  match cs.dropWhile isPyWhitespace with
  | '(' :: cs1 =>
      match takeDigitsUpTo2 cs1 with
      | some (mo, cs2) =>
          match cs2 with
          | '/' :: cs3 =>
              match takeDigitsUpTo2 cs3 with
              | some (d, cs4) =>
                  match cs4 with
                  | '/' :: cs5 =>
                      match takeDigits4 cs5 with
                      | some (y, cs6) =>
                          match cs6 with
                          | ')' :: _ => some (mo, d, y)
                          | _ => none
                      | none => none
                  | _ => none
              | none => none
          | _ => none
      | none => none
  | _ => none

/-- The lazy tail `[A-Za-z\- ]+?` of the group in `parse_name_dob`, followed by
the date part: consume one tail character at a time and test the date part
after each one, so the shortest extension wins, as the lazy quantifier does. -/
def lazyNameTail (acc : List Char) : List Char → Option (List Char × (Nat × Nat × Nat))
  | c :: rest =>
      if isNameTailChar c then
        match matchDatePart rest with
        | some md => some (acc ++ [c], md)
        | none => lazyNameTail (acc ++ [c]) rest
      else none
  | [] => none

/-- `re.search` of the pattern in `parse_name_dob`: try each start position
left to right; a match must start with an ASCII letter, continue with the
shortest viable name tail, then the whitespace-then-parenthesized date.
Returns the characters of group 1 and the captured month/day/year numbers. -/
def reSearchNameDob : List Char → Option (List Char × Nat × Nat × Nat)
  | [] => none
  | c :: rest =>
      if isAsciiAlpha c then
        match lazyNameTail [] rest with
        | some (tailChars, (mo, d, y)) => some (c :: tailChars, mo, d, y)
        | none => reSearchNameDob rest
      else reSearchNameDob rest

/-- Python `str.strip()`: drop whitespace from both ends. -/
def pyStrip (cs : List Char) : List Char :=
  ((cs.dropWhile isPyWhitespace).reverse.dropWhile isPyWhitespace).reverse

/-- Worker for `pyWords`: `cur` is the word being accumulated (reversed),
absent between words. -/
def pyWordsAux : Option (List Char) → List Char → List (List Char)
  | none, [] => []
  | some cur, [] => [cur.reverse]
  | none, c :: rest =>
      if isPyWhitespace c then pyWordsAux none rest
      else pyWordsAux (some [c]) rest
  | some cur, c :: rest =>
      if isPyWhitespace c then cur.reverse :: pyWordsAux none rest
      else pyWordsAux (some (c :: cur)) rest

/-- Python `str.split()` with no argument: maximal runs of non-whitespace. -/
def pyWords (cs : List Char) : List (List Char) :=
  pyWordsAux none cs

/-- `parse_name_dob` (src/prosper/ehr/adapters/parsing_helpers.py, lines 5-24).
The Python code builds `dt.date(int(year), int(month), int(day))` before the
first/last-name check and does not catch the `ValueError` the constructor
raises on a non-calendar date, so the result type is `Except`: `.error`
models that escaping `ValueError`, `.ok none` models the `return None`
branches. -/
def parse_name_dob (text : String) : Except String (Option (String × String × Date)) :=
  match reSearchNameDob text.data with
  | none => .ok none
  | some (group1, mo, d, y) =>
      match mkValidDate y mo d with
      | none => .error "ValueError: invalid date passed to datetime.date"
      | some dob =>
          let full_name := pyStrip group1
          match pyWords full_name with
          | [] => .ok none
          | [_] => .ok none
          | first :: restParts =>
              .ok (some (String.mk first,
                " ".intercalate (restParts.map String.mk), dob))

/-- Whether `need` occurs as a contiguous run inside `hay`. -/
def hasSubstr (need : List Char) : List Char → Bool
  | [] => need.isEmpty
  | c :: t => need.isPrefixOf (c :: t) || hasSubstr need t

/-- Python's `key in s` substring test. -/
def containsSubstr (s key : String) : Bool :=
  hasSubstr key.data s.data

/-- ASCII lowering, enough for the all-ASCII auth keywords below. -/
def asciiToLower (c : Char) : Char :=
  if 'A' ≤ c && c ≤ 'Z' then Char.ofNat (c.toNat + 32) else c

/-- `GraphQLHealthieClient._looks_like_auth_error` (graphql.py, lines 301-314). -/
def _looks_like_auth_error (message : String) : Bool :=
  let msg := message.data.map asciiToLower
  ["unauthorized", "not authorized", "forbidden", "expired", "invalid token",
    "jwt", "authentication"].any (fun key => hasSubstr key.data msg)

/-- Raw record of the `users` query response (graphql.py `_USERS_QUERY`). -/
structure RawUser where
  id : String
  first_name : Option String := none
  last_name : Option String := none
  dob : Option String := none
deriving DecidableEq, Repr

/-- JSON body of a 2xx GraphQL response, restricted to the fields the embedded
operations read: the flattened top-level error messages (empty list = no
`errors` key) and the `data.users` payload. -/
structure GQLBody where
  errors : List String := []
  users : List RawUser := []
deriving DecidableEq, Repr

/-- Outcome of one HTTP POST to the GraphQL endpoint: a 2xx response with a
JSON body, a non-2xx status (`raise_for_status` raises `HTTPStatusError`), or
any other exception during the request (network failure, bad JSON). -/
inductive GQLResp where
  | success (body : GQLBody)
  | statusError (status : Nat) (msg : String)
  | failure (msg : String)
deriving DecidableEq, Repr

/-- The remote system as the transport observes it during one public call:
the outcome of a signIn attempt (abstracting the network path of
`_ensure_authenticated`: an error message or a fresh token), and the response
to the n-th GraphQL request of the call. -/
structure GQLEnv where
  signIn : Except String String
  responses : Nat → GQLResp

/-- Mutable transport state read and written by `_graphql`: the cached token. -/
structure ClientState where
  token : Option String
deriving DecidableEq, Repr

/-- `_ensure_authenticated` (graphql.py, lines 121-156): a cached token is
returned as is; otherwise the signIn outcome either yields and caches a fresh
token, or raises `EHRUnavailableError` (missing credentials, request failure,
error messages in the payload, missing token are all collapsed into the
environment's signIn error message). -/
def ensureAuthenticated (env : GQLEnv) (st : ClientState) :
    Except PyExc (String × ClientState) :=
  match st.token with
  | some t => .ok (t, st)
  | none =>
      match env.signIn with
      | .ok t => .ok (t, { token := some t })
      | .error m => .error (.ehrUnavailable m)

/-- `_graphql` with `_retry_on_auth=False` (graphql.py, lines 165-203): one
authenticated request; every failure raises `EHRUnavailableError`.  Returns
the outcome, the state after, and the updated count of underlying GraphQL
requests issued (the signIn POST is not counted). -/
def graphqlNoRetry (env : GQLEnv) (st : ClientState) (used : Nat) :
    Except PyExc GQLBody × ClientState × Nat :=
  match ensureAuthenticated env st with
  | .error e => (.error e, st, used)
  | .ok (_, st1) =>
      match env.responses used with
      | .statusError _ m =>
          (.error (.ehrUnavailable ("Healthie GraphQL request failed: " ++ m)), st1, used + 1)
      | .failure m =>
          (.error (.ehrUnavailable ("Healthie GraphQL request failed: " ++ m)), st1, used + 1)
      | .success body =>
          if body.errors.isEmpty then (.ok body, st1, used + 1)
          else
            (.error (.ehrUnavailable
              ("Healthie GraphQL error: " ++ String.intercalate "; " body.errors)), st1, used + 1)

/-- `_graphql` with the default `_retry_on_auth=True` (graphql.py, lines
165-203): on HTTP 401/403, or on an application-level error payload whose
joined message matches the auth heuristic, clear the cached token and retry
exactly once with `_retry_on_auth=False`. -/
def _graphql (env : GQLEnv) (st : ClientState) (used : Nat) :
    Except PyExc GQLBody × ClientState × Nat :=
  match ensureAuthenticated env st with
  | .error e => (.error e, st, used)
  | .ok (_, st1) =>
      match env.responses used with
      | .statusError status m =>
          if status == 401 || status == 403 then
            graphqlNoRetry env { token := none } (used + 1)
          else
            (.error (.ehrUnavailable ("Healthie GraphQL request failed: " ++ m)), st1, used + 1)
      | .failure m =>
          (.error (.ehrUnavailable ("Healthie GraphQL request failed: " ++ m)), st1, used + 1)
      | .success body =>
          if body.errors.isEmpty then (.ok body, st1, used + 1)
          else
            let msgs := String.intercalate "; " body.errors
            if _looks_like_auth_error msgs then
              graphqlNoRetry env { token := none } (used + 1)
            else
              (.error (.ehrUnavailable ("Healthie GraphQL error: " ++ msgs)), st1, used + 1)

/-- Whether a response is an authorization failure in the sense of `_graphql`:
HTTP 401/403, or an error payload whose joined message matches the heuristic. -/
def isAuthFailureResp : GQLResp → Bool
  | .statusError status _ => status == 401 || status == 403
  | .success body =>
      !body.errors.isEmpty && _looks_like_auth_error (String.intercalate "; " body.errors)
  | .failure _ => false

/-- `GraphQLHealthieClient.search_patients` (graphql.py, lines 205-223): run
the users query, then map each raw record to a Patient; an empty or missing
dob string becomes no date, a dob string that fails ISO parsing becomes no
date via the caught `ValueError`. -/
def search_patients (env : GQLEnv) (st : ClientState) (_keywords : String) :
    Except PyExc (List Patient) × ClientState × Nat :=
  match _graphql env st 0 with
  | (.error e, st1, n) => (.error e, st1, n)
  | (.ok body, st1, n) =>
      let patients := body.users.map (fun u =>
        let dob_raw := u.dob.getD ""
        let dob := if dob_raw == "" then none else dateFromIsoformat dob_raw
        { patient_id := u.id
          first_name := u.first_name.getD ""
          last_name := u.last_name.getD ""
          date_of_birth := dob })
      (.ok patients, st1, n)

/-- `_MAX_POLL_ATTEMPTS` (playwright.py, line 28). -/
def _MAX_POLL_ATTEMPTS : Nat := 20

/-- The poll loop at the end of `PlaywrightHealthieClient.cancel_appointment`
(playwright.py, lines 312-315): up to `_MAX_POLL_ATTEMPTS` checks of
`modal.count() == 0`, the i-th check supplied by the oracle `modalGoneAt`.
True iff some check observed the modal gone (the loop broke). -/
def cancelPollClosed (modalGoneAt : Nat → Bool) : Bool :=
  (List.range _MAX_POLL_ATTEMPTS).any modalGoneAt

/-- The browser UI as `cancel_appointment` observes it: the `inner_text` of
each appointment preview item, and the poll oracle for the detail modal. -/
structure CancelUI where
  itemsText : List String
  modalGoneAt : Nat → Bool

/-- `PlaywrightHealthieClient.cancel_appointment` (playwright.py, lines
241-336) over the observable UI.  Find the first list item whose text
contains both the short-form date and the 12-hour time.  When none matches,
the code raises `AppointmentCancellationError(reason=..., patient_id=...)`,
but that class accepts no `patient_id` keyword (exceptions.py, line 21), so
constructing it raises `TypeError`; the `except Exception` handler then
constructs the same class with the same bad keyword, so the `TypeError`
escapes — modelled by `.other`.  When a match is found: run the
status-dropdown/save sequence (no effect observable by the claims), poll for
the modal closing, log a warning on exhaustion (the Bool), and return a
cancelled Appointment with the sentinel id in every case — this path never
raises. -/
def pw_cancel_appointment (ui : CancelUI) (patient_id : String) (date : Date)
    (time : Time) : (Except PyExc Appointment) × Bool :=
  let target_date_str := _date_to_short date
  let target_time_str := time_to_12h time
  let matched := ui.itemsText.any
    (fun t => containsSubstr t target_date_str && containsSubstr t target_time_str)
  if !matched then
    (.error (.other
      "TypeError: AppointmentCancellationError got an unexpected keyword argument patient_id"),
     false)
  else
    let closed := cancelPollClosed ui.modalGoneAt
    (.ok { appointment_id := "unknown"
           patient_id := patient_id
           date := some date
           time := some time
           status := .cancelled },
     !closed)

/-- Required positional parameters of `PlaywrightHealthieClient.cancel_appointment`
(playwright.py, lines 241-243); none has a default. -/
def playwrightCancelParams : List String := ["patient_id", "date", "time"]

/-- Required positional parameters of `GraphQLHealthieClient.cancel_appointment`
(graphql.py, line 257). -/
def graphqlCancelParams : List String := ["appointment_id"]

/-- Parameters declared by `EHRClientProtocol.cancel_appointment`
(ports.py, line 80) — the contract the service compiles against. -/
def protocolCancelParams : List String := ["appointment_id"]

/-- Number of positional arguments the service's call site passes:
`await self._client.cancel_appointment(appointment_id)` (service.py, line 64). -/
def serviceCancelCallArgCount : Nat := 1

/-- Python call binding for a function all of whose parameters lack defaults:
the call raises `TypeError` unless the positional argument count equals the
parameter count. -/
def pyCallBindsOk (params : List String) (positional : Nat) : Bool :=
  params.length == positional

/-- The Playwright-deployed client's `cancel_appointment` as the service
invokes it (factory `_build_playwright` wires `PlaywrightHealthieClient` into
`EHRService`): binding one positional argument against the three required
parameters raises `TypeError` before the method body runs. -/
def playwrightDeployedCancel (_appointment_id : String) : Except PyExc Appointment :=
  .error (.other
    "TypeError: cancel_appointment missing 2 required positional arguments: date and time")

/-- `_parse_iso_date` (tools.py, lines 94-104) on string input; the error
message text follows the source (which additionally quotes the values). -/
def _parse_iso_date (value : String) (field_name : String) : Except String Date :=
  match dateFromIsoformat value with
  | some d => .ok d
  | none =>
      .error ("Invalid date format for " ++ field_name ++ ": " ++ value
        ++ ". Expected YYYY-MM-DD.")

/-- `_parse_iso_time` (tools.py, lines 107-114) on string input. -/
def _parse_iso_time (value : String) (field_name : String) : Except String Time :=
  match timeFromIsoformat value with
  | some t => .ok t
  | none =>
      .error ("Invalid time format for " ++ field_name ++ ": " ++ value
        ++ ". Expected HH:MM.")

/-- The flat result dictionary a tool handler passes to `result_callback`,
restricted to the keys the claims read. -/
structure ToolReply where
  success : Bool := false
  error : Bool := false
  message : String := ""
deriving DecidableEq, Repr

/-- Minute count of a wall-clock datetime; strictly monotone for the
lexicographic (date, time) order on calendar-valid dates (day ≤ 31,
month ≤ 12, minute < 60, hour < 24). -/
def wallKey (d : Date) (t : Time) : Int :=
  ((((d.year * 12 + (d.month - 1)) * 31 + (d.day - 1)) * 1440
    + t.hour * 60 + t.minute : Nat) : Int)

/-- UTC offset in minutes of a timezone object.  ZoneInfo offsets vary with
DST; a fixed per-zone offset map is enough for every property stated here,
because each comparison involves two datetimes carrying the same tzinfo. -/
def TZInfo.offsetMinutes (zoneOffset : String → Int) : TZInfo → Int
  | .utc => 0
  | .zoneinfo name => zoneOffset name

/-- Instant of an aware datetime: wall-clock key minus the UTC offset.
Python orders aware datetimes by instant. -/
def instantKey (offset : Int) (d : Date) (t : Time) : Int :=
  wallKey d t - offset

/-- `ToolHandlers.__init__` (tools.py, lines 120-126): the handler stores
`resolve_timezone(clinic_timezone)` as its `_clinic_tz`. -/
def toolHandlersClinicTz (isValidZone : String → Bool) (clinic_timezone : String) : TZInfo :=
  resolve_timezone isValidZone clinic_timezone

/-- `GraphQLHealthieClient.__init__` (graphql.py, lines 110-119): the client
stores `resolve_timezone(clinic_timezone)` as its `_clinic_tz`. -/
def graphqlClientClinicTz (isValidZone : String → Bool) (clinic_timezone : String) : TZInfo :=
  resolve_timezone isValidZone clinic_timezone

/-- `ToolHandlers.handle_create_appointment` (tools.py, lines 250-328), with
the EHR service's `create_appointment` as a function and the current instant
as `nowUtcKey`.  `dt.datetime.now(tz)` is that instant; the combined
`dt.datetime.combine(date_val, time_val, tzinfo=tz)` is a wall time in the
clinic timezone, and `appointment_dt < now` compares the two aware datetimes
by instant.  Returns the reply passed to `result_callback` and whether the
EHR service was invoked. -/
def handle_create_appointment (tzOffset : Int) (nowUtcKey : Int)
    (svc : AppointmentRequest → Except PyExc Appointment)
    (patient_id date_str time_str : String) : ToolReply × Bool :=
  if patient_id == "" || date_str == "" || time_str == "" then
    ({ success := false, error := true,
       message := "patient_id, date, and time are all required." }, false)
  else
    match _parse_iso_date date_str "date", _parse_iso_time time_str "time" with
    | .error e, _ => ({ success := false, error := true, message := e }, false)
    | .ok _, .error e => ({ success := false, error := true, message := e }, false)
    | .ok date_val, .ok time_val =>
        if instantKey tzOffset date_val time_val < nowUtcKey then
          ({ success := false, error := true,
             message := "Appointment time is in the past. Please provide a future date and time." },
           false)
        else
          match svc { patient_id := patient_id, date := date_val, time := time_val } with
          | .ok _ =>
              ({ success := true, error := false,
                 message := "Appointment created successfully." }, true)
          | .error e =>
              if e.inTaxonomy then
                ({ success := false, error := true, message := e.str }, true)
              else
                ({ success := false, error := true,
                   message := "An unexpected error occurred while creating the appointment." },
                 true)

/-! Auxiliary lemmas about the character classes and the specialized
regex-search functions, used for the `parse_name_dob` properties. -/

/-- An ASCII letter is not regex whitespace. -/
theorem alphaNotWs {c : Char} (h : isAsciiAlpha c = true) : isPyWhitespace c = false := by
  cases hw : isPyWhitespace c
  · rfl
  · exfalso
    simp [isPyWhitespace] at hw
    rcases hw with ((((h1 | h1) | h1) | h1) | h1) | h1 <;> subst h1 <;>
      exact absurd h (by decide)

/-- An ASCII letter belongs to the name-tail class. -/
theorem alphaIsNameTail {c : Char} (h : isAsciiAlpha c = true) : isNameTailChar c = true := by
  simp [isNameTailChar, h]

/-- An ASCII letter is not an opening parenthesis. -/
theorem alphaNeParen {c : Char} (h : isAsciiAlpha c = true) : c ≠ '(' := by
  intro he
  subst he
  exact absurd h (by decide)

/-- The date part of the pattern cannot match at an ASCII letter. -/
theorem matchDatePart_alpha_head {c : Char} (cs : List Char) (h : isAsciiAlpha c = true) :
    matchDatePart (c :: cs) = none := by
  unfold matchDatePart
  rw [List.dropWhile_cons, alphaNotWs h]
  simp only [Bool.false_eq_true, if_false]
  split
  · rename_i heq
    exfalso
    exact alphaNeParen h (List.head_eq_of_cons_eq heq)
  · rfl

/-- The date part of the pattern skips a leading space. -/
theorem matchDatePart_ws_cons (l : List Char) :
    matchDatePart (' ' :: l) = matchDatePart l := by
  unfold matchDatePart
  rw [List.dropWhile_cons]
  norm_num [isPyWhitespace]

/-- Walking the lazy name tail over an all-letter word followed by a space and
a matching date part: the tail stops at the end of the word; for the empty
tail it still must consume one character, the space. -/
theorem lazyNameTail_words (w : List Char) :
    ∀ (acc t : List Char) (md : Nat × Nat × Nat),
    (∀ c ∈ w, isAsciiAlpha c = true) →
    matchDatePart (' ' :: t) = some md →
    lazyNameTail acc (w ++ ' ' :: t)
      = some (acc ++ (if w = [] then [' '] else w), md) := by
  induction w with
  | nil =>
      intro acc t md _ ht
      have ht2 : matchDatePart t = some md := by
        rw [← matchDatePart_ws_cons]
        exact ht
      have hsp : isNameTailChar ' ' = true := by decide
      simp [lazyNameTail, ht2, hsp]
  | cons c w ih =>
      intro acc t md hw ht
      have hc : isAsciiAlpha c = true := hw c (by simp)
      have hw2 : ∀ x ∈ w, isAsciiAlpha x = true := fun x hx => hw x (by simp [hx])
      cases w with
      | nil =>
          simp only [List.nil_append, List.cons_append]
          simp [lazyNameTail, alphaIsNameTail hc, ht]
      | cons c2 w2 =>
          have hne : matchDatePart (c2 :: (w2 ++ ' ' :: t)) = none := by
            have := matchDatePart_alpha_head (w2 ++ ' ' :: t) (hw2 c2 (by simp))
            simpa using this
          conv_lhs => rw [List.cons_append, lazyNameTail]
          rw [alphaIsNameTail hc]
          simp only [eq_self_iff_true, if_true]
          rw [List.cons_append]
          rw [hne]
          show lazyNameTail (acc ++ [c]) (c2 :: (w2 ++ ' ' :: t)) = _
          have hih := ih (acc ++ [c]) t md hw2 ht
          rw [List.cons_append] at hih
          rw [hih]
          simp

/-- The regex search on a single all-letter word, a space, and a matching
date part finds the match at position zero. -/
theorem reSearch_single_word (c : Char) (w t : List Char) (md : Nat × Nat × Nat)
    (hc : isAsciiAlpha c = true) (hw : ∀ x ∈ w, isAsciiAlpha x = true)
    (ht : matchDatePart (' ' :: t) = some md) :
    reSearchNameDob ((c :: w) ++ ' ' :: t)
      = some (c :: (if w = [] then [' '] else w), md) := by
  rw [List.cons_append]
  conv_lhs => rw [reSearchNameDob]
  rw [hc]
  simp only [eq_self_iff_true, if_true]
  rw [lazyNameTail_words w [] t md hw ht]
  simp

/-- Stripping is the identity on an all-letter list. -/
theorem pyStrip_all_alpha (l : List Char) (h : ∀ c ∈ l, isAsciiAlpha c = true) :
    pyStrip l = l := by
  unfold pyStrip
  have h1 : l.dropWhile isPyWhitespace = l := by
    cases l with
    | nil => rfl
    | cons a l =>
        rw [List.dropWhile_cons, alphaNotWs (h a (by simp))]
        simp
  rw [h1]
  have h2 : l.reverse.dropWhile isPyWhitespace = l.reverse := by
    cases hrev : l.reverse with
    | nil => rfl
    | cons a r =>
        have ha : a ∈ l := by
          rw [← List.mem_reverse, hrev]
          simp
        rw [List.dropWhile_cons, alphaNotWs (h a ha)]
        simp
  rw [h2, List.reverse_reverse]

/-- Stripping a letter followed by one space keeps only the letter. -/
theorem pyStrip_alpha_space (c : Char) (hc : isAsciiAlpha c = true) :
    pyStrip [c, ' '] = [c] := by
  unfold pyStrip
  rw [List.dropWhile_cons, alphaNotWs hc]
  simp only [Bool.false_eq_true, if_false]
  have hsp : isPyWhitespace ' ' = true := by decide
  simp [List.dropWhile_cons, hsp, alphaNotWs hc]

/-- The word accumulator flushes an all-letter remainder into the open word. -/
theorem pyWordsAux_alpha (l : List Char) :
    ∀ (cur : List Char), (∀ x ∈ l, isAsciiAlpha x = true) →
    pyWordsAux (some cur) l = [cur.reverse ++ l] := by
  induction l with
  | nil =>
      intro cur _
      simp [pyWordsAux]
  | cons c rest ih =>
      intro cur h
      have hc := alphaNotWs (h c (by simp))
      simp only [pyWordsAux, hc, Bool.false_eq_true, if_false]
      rw [ih (c :: cur) (fun x hx => h x (by simp [hx]))]
      simp

/-- Splitting an all-letter list yields that single word. -/
theorem pyWords_all_alpha (c : Char) (l : List Char) (hc : isAsciiAlpha c = true)
    (hl : ∀ x ∈ l, isAsciiAlpha x = true) :
    pyWords (c :: l) = [c :: l] := by
  unfold pyWords
  simp only [pyWordsAux, alphaNotWs hc, Bool.false_eq_true, if_false]
  rw [pyWordsAux_alpha l [c] hl]
  simp

/-- A single all-letter word before a space and a well-formed, calendar-valid
parenthesized date makes `parse_name_dob` return None (first and last name
are both required). -/
theorem parse_single_word (w t : List Char) (mo d y : Nat) (dob : Date)
    (hw1 : w ≠ []) (hw : ∀ c ∈ w, isAsciiAlpha c = true)
    (ht : matchDatePart (' ' :: t) = some (mo, d, y))
    (hmk : mkValidDate y mo d = some dob) :
    parse_name_dob (String.mk (w ++ ' ' :: t)) = .ok none := by
  obtain ⟨c, w2, rfl⟩ : ∃ c w2, w = c :: w2 := by
    cases w with
    | nil => exact absurd rfl hw1
    | cons a l => exact ⟨a, l, rfl⟩
  have hc : isAsciiAlpha c = true := hw c (by simp)
  have hw2 : ∀ x ∈ w2, isAsciiAlpha x = true := fun x hx => hw x (by simp [hx])
  unfold parse_name_dob
  have hdata : (String.mk ((c :: w2) ++ ' ' :: t)).data = (c :: w2) ++ ' ' :: t := rfl
  rw [hdata, reSearch_single_word c w2 t (mo, d, y) hc hw2 ht]
  cases w2 with
  | nil =>
      simp only [if_pos rfl, if_true, eq_self_iff_true, hmk,
        pyStrip_alpha_space c hc, pyWords_all_alpha c [] hc (by intro x hx; cases hx)]
  | cons c2 w3 =>
      simp only [if_neg (by simp : ¬((c2 :: w3 : List Char) = [])), hmk,
        pyStrip_all_alpha (c :: c2 :: w3) hw, pyWords_all_alpha c (c2 :: w3) hc hw2]

/-! The claim theorems. -/

/-- C1 (counterexample): it is not true that every exception in the error
taxonomy propagates through the service unmodified.  `AppointmentCancellationError`
is in the taxonomy, yet when the transport raises it during
`create_appointment`, the service rewraps it into `AppointmentCreationError`. -/
theorem service_taxonomy_passthrough_cex :
    PyExc.inTaxonomy (.appointmentCancellationError "boom" none) = true
    ∧ EHRService.create_appointment
        (fun _ => .error (.appointmentCancellationError "boom" none))
        { patient_id := "42", date := ⟨2026, 3, 15⟩, time := ⟨14, 30⟩ }
      = .error (.appointmentCreationError "Failed to cancel appointment: boom" (some "42"))
    ∧ EHRService.create_appointment
        (fun _ => .error (.appointmentCancellationError "boom" none))
        { patient_id := "42", date := ⟨2026, 3, 15⟩, time := ⟨14, 30⟩ }
      ≠ .error (.appointmentCancellationError "boom" none) := by
  refine ⟨rfl, rfl, ?_⟩
  simp [EHRService.create_appointment]

/-- C1 (amended): for `create_appointment`, exactly `AppointmentCreationError`
and `EHRUnavailableError` raised by the transport propagate unmodified; every
other exception — including the other taxonomy error — is rewrapped into
`AppointmentCreationError` whose reason is the original exception's message,
never into `EHRUnavailableError`; symmetrically for `cancel_appointment` with
`AppointmentCancellationError`. -/
theorem service_error_wrapping_policy (r m msg : String) (p q : Option String)
    (request : AppointmentRequest) (appointment_id : String) :
    (EHRService.create_appointment
        (fun _ => .error (.appointmentCreationError r p)) request
      = .error (.appointmentCreationError r p))
    ∧ (EHRService.create_appointment
        (fun _ => .error (.ehrUnavailable m)) request
      = .error (.ehrUnavailable m))
    ∧ (EHRService.create_appointment
        (fun _ => .error (.other msg)) request
      = .error (.appointmentCreationError msg (some request.patient_id)))
    ∧ (EHRService.create_appointment
        (fun _ => .error (.appointmentCancellationError r q)) request
      = .error (.appointmentCreationError
          ("Failed to cancel appointment: " ++ r) (some request.patient_id)))
    ∧ (EHRService.cancel_appointment
        (fun _ => .error (.appointmentCancellationError r q)) appointment_id
      = .error (.appointmentCancellationError r q))
    ∧ (EHRService.cancel_appointment
        (fun _ => .error (.ehrUnavailable m)) appointment_id
      = .error (.ehrUnavailable m))
    ∧ (EHRService.cancel_appointment
        (fun _ => .error (.other msg)) appointment_id
      = .error (.appointmentCancellationError msg (some appointment_id)))
    ∧ (EHRService.cancel_appointment
        (fun _ => .error (.appointmentCreationError r p)) appointment_id
      = .error (.appointmentCancellationError
          ("Failed to create appointment: " ++ r) (some appointment_id))) :=
  ⟨rfl, rfl, rfl, rfl, rfl, rfl, rfl, rfl⟩

/-- C2: with a cached token, an authorization failure (HTTP 401/403 or an
auth-looking error payload) on the first request makes `_graphql` clear the
token and rerun exactly once through the no-retry path with fresh
authentication; at most 2 underlying requests are made; any failure of the
retried attempt (including a failed re-authentication) surfaces as
`EHRUnavailableError`, while a clean second response is returned as success. -/
theorem graphql_auth_retry (env : GQLEnv) (t : String)
    (hauth : isAuthFailureResp (env.responses 0) = true) :
    _graphql env { token := some t } 0 = graphqlNoRetry env { token := none } 1
    ∧ (_graphql env { token := some t } 0).2.2 ≤ 2
    ∧ ((∃ body, env.responses 1 = .success body ∧ body.errors.isEmpty = true
          ∧ (_graphql env { token := some t } 0).1 = .ok body)
        ∨ (∃ msg, (_graphql env { token := some t } 0).1
            = .error (.ehrUnavailable msg))) := by
  have hmain : _graphql env { token := some t } 0
      = graphqlNoRetry env { token := none } 1 := by
    unfold _graphql
    simp only [ensureAuthenticated]
    cases hr : env.responses 0 with
    | statusError status m =>
        simp only [isAuthFailureResp, hr] at hauth
        simp [hauth]
    | success body =>
        simp only [isAuthFailureResp, hr] at hauth
        have h1e : body.errors.isEmpty = false := by
          cases hh : body.errors.isEmpty
          · rfl
          · rw [hh] at hauth
            simp at hauth
        have h2 : _looks_like_auth_error (String.intercalate "; " body.errors) = true := by
          rw [h1e] at hauth
          simpa using hauth
        simp [h1e, h2]
    | failure m =>
        simp [isAuthFailureResp, hr] at hauth
  refine ⟨hmain, ?_, ?_⟩
  · rw [hmain]
    unfold graphqlNoRetry
    simp only [ensureAuthenticated]
    cases hs : env.signIn with
    | error m => simp
    | ok tk =>
        cases hr1 : env.responses 1 with
        | statusError s m => simp
        | failure m => simp
        | success body => cases hb : body.errors.isEmpty <;> simp [hb]
  · rw [hmain]
    unfold graphqlNoRetry
    simp only [ensureAuthenticated]
    cases hs : env.signIn with
    | error m =>
        right
        exact ⟨m, by simp⟩
    | ok tk =>
        cases hr1 : env.responses 1 with
        | statusError s m =>
            right
            exact ⟨"Healthie GraphQL request failed: " ++ m, by simp⟩
        | failure m =>
            right
            exact ⟨"Healthie GraphQL request failed: " ++ m, by simp⟩
        | success body =>
            cases hb : body.errors.isEmpty with
            | true =>
                left
                exact ⟨body, rfl, hb, by simp [hb]⟩
            | false =>
                right
                exact ⟨"Healthie GraphQL error: " ++ String.intercalate "; " body.errors,
                  by simp [hb]⟩

/-- Remote environment for the auth-retry scenario: first request rejected
with 401, re-authentication succeeds, second request succeeds. -/
def authRetryEnv : GQLEnv :=
  ⟨.ok "fresh", fun n => if n == 0 then .statusError 401 "Unauthorized"
    else .success ⟨[], []⟩⟩

/-- C2 witness: the retry scenario at a concrete environment. -/
theorem graphql_auth_retry_witness :
    isAuthFailureResp (authRetryEnv.responses 0) = true
    ∧ (_graphql authRetryEnv ⟨some "stale"⟩ 0).2.2 ≤ 2
    ∧ (_graphql authRetryEnv ⟨some "stale"⟩ 0).1 = .ok ⟨[], []⟩ := by
  have h : isAuthFailureResp (authRetryEnv.responses 0) = true := rfl
  exact ⟨h, (graphql_auth_retry authRetryEnv "stale" h).2.1, rfl⟩

/-- C3 (code bug): the service and the transport contract cancel by opaque id
with one positional argument, which binds against the GraphQL transport but
not against the Playwright transport, whose `cancel_appointment` requires
`(patient_id, date, time)`; in the factory-built Playwright deployment the
service's cancel therefore always fails, the `TypeError` being rewrapped into
`AppointmentCancellationError`. -/
theorem cancel_signature_mismatch (appointment_id : String) :
    pyCallBindsOk protocolCancelParams serviceCancelCallArgCount = true
    ∧ pyCallBindsOk graphqlCancelParams serviceCancelCallArgCount = true
    ∧ pyCallBindsOk playwrightCancelParams serviceCancelCallArgCount = false
    ∧ EHRService.cancel_appointment playwrightDeployedCancel appointment_id
        = .error (.appointmentCancellationError
            "TypeError: cancel_appointment missing 2 required positional arguments: date and time"
            (some appointment_id)) :=
  ⟨rfl, rfl, rfl, rfl⟩

/-- C4: when the Playwright cancel finds the appointment but the detail modal
never closes within the `_MAX_POLL_ATTEMPTS` poll budget, the operation does
not raise: it logs a warning (the `true` flag) and still returns an
Appointment with status cancelled. -/
theorem playwright_cancel_poll_exhaustion (ui : CancelUI) (patient_id : String)
    (date : Date) (time : Time)
    (hmatch : ui.itemsText.any (fun s =>
        containsSubstr s (_date_to_short date) && containsSubstr s (time_to_12h time)) = true)
    (hpoll : ∀ i, i < _MAX_POLL_ATTEMPTS → ui.modalGoneAt i = false) :
    pw_cancel_appointment ui patient_id date time
      = (.ok { appointment_id := "unknown", patient_id := patient_id,
               date := some date, time := some time, status := .cancelled },
         true) := by
  have hclosed : cancelPollClosed ui.modalGoneAt = false := by
    unfold cancelPollClosed
    rw [List.any_eq_false]
    intro i hi
    simp only [List.mem_range] at hi
    simp [hpoll i hi]
  unfold pw_cancel_appointment
  simp [hmatch, hclosed]

/-- Browser state for the poll-exhaustion scenario: one matching appointment
row, modal never observed closed. -/
def pollExhaustUI : CancelUI :=
  ⟨["Mar 12, 2026 2:30 PM Telehealth"], fun _ => false⟩

/-- C4 witness: poll exhaustion at a concrete browser state. -/
theorem playwright_cancel_poll_exhaustion_witness :
    pw_cancel_appointment pollExhaustUI "77" ⟨2026, 3, 12⟩ ⟨14, 30⟩
      = (.ok { appointment_id := "unknown", patient_id := "77",
               date := some ⟨2026, 3, 12⟩, time := some ⟨14, 30⟩, status := .cancelled },
         true) :=
  playwright_cancel_poll_exhaustion pollExhaustUI "77" ⟨2026, 3, 12⟩ ⟨14, 30⟩
    rfl (fun _ _ => rfl)

/-- C5: `find_patient` with a DOB filter returns exactly the transport results
whose date of birth equals the filter, in the transport's order (the result is
a sublist); with no filter it returns the transport list unchanged. -/
theorem find_patient_dob_filter (patients : List Patient) (name : String) (dob : Date) :
    EHRService.find_patient (fun _ => .ok patients) name none = .ok patients
    ∧ EHRService.find_patient (fun _ => .ok patients) name (some dob)
        = .ok (patients.filter (fun p => p.date_of_birth == some dob))
    ∧ (∀ p, p ∈ patients.filter (fun p => p.date_of_birth == some dob)
              ↔ p ∈ patients ∧ p.date_of_birth = some dob)
    ∧ (patients.filter (fun p => p.date_of_birth == some dob)).Sublist patients := by
  refine ⟨rfl, rfl, ?_, List.filter_sublist _⟩
  intro p
  simp [List.mem_filter]

/-- C6: a transport-raised `EHRUnavailableError` during search propagates
through `find_patient` unchanged; a non-taxonomy exception is rewrapped into
`EHRUnavailableError` whose message embeds the original message. -/
theorem find_patient_error_wrapping (name m msg : String) (dob : Option Date) :
    EHRService.find_patient (fun _ => .error (.ehrUnavailable m)) name dob
      = .error (.ehrUnavailable m)
    ∧ EHRService.find_patient (fun _ => .error (.other msg)) name dob
      = .error (.ehrUnavailable ("Patient search failed: " ++ msg)) :=
  ⟨rfl, rfl⟩

/-- C7 (code bug): the GraphQL search path normalizes a malformed dob to an
absent date, but the Playwright path's `parse_name_dob` raises `ValueError`
on a row whose parenthesized date matches the pattern without being a valid
calendar date, so dob parsing can raise. -/
theorem dob_parsing_valueerror :
    parse_name_dob "Marc Camps (2/30/2003)"
      = .error "ValueError: invalid date passed to datetime.date"
    ∧ mkValidDate 2003 2 30 = none
    ∧ (search_patients
        ⟨.ok "tok", fun _ => .success ⟨[], [⟨"1", some "Marc", some "Camps", some "2003-02-30"⟩]⟩⟩
        ⟨some "tok"⟩ "marc").1
      = .ok [{ patient_id := "1", first_name := "Marc", last_name := "Camps",
               date_of_birth := none }] :=
  ⟨rfl, rfl, rfl⟩

/-- C8: a create-appointment tool call whose parsed date and time, combined in
the clinic timezone, lie strictly before the current instant is rejected with
`error=true` and the past-time message, and the EHR service is not invoked. -/
theorem create_tool_rejects_past_time (tzOffset nowUtcKey : Int)
    (svc : AppointmentRequest → Except PyExc Appointment)
    (patient_id date_str time_str : String) (d : Date) (t : Time)
    (hpid : (patient_id == "") = false)
    (hd : _parse_iso_date date_str "date" = .ok d)
    (ht : _parse_iso_time time_str "time" = .ok t)
    (hpast : instantKey tzOffset d t < nowUtcKey) :
    handle_create_appointment tzOffset nowUtcKey svc patient_id date_str time_str
      = ({ success := false, error := true,
           message := "Appointment time is in the past. Please provide a future date and time." },
         false) := by
  have hds : (date_str == "") = false := by
    cases h : date_str == "" with
    | false => rfl
    | true =>
        have he : date_str = "" := by simpa using h
        subst he
        simp [_parse_iso_date, dateFromIsoformat] at hd
  have hts : (time_str == "") = false := by
    cases h : time_str == "" with
    | false => rfl
    | true =>
        have he : time_str = "" := by simpa using h
        subst he
        simp [_parse_iso_time, timeFromIsoformat] at ht
  unfold handle_create_appointment
  rw [hpid, hds, hts, hd, ht]
  simp [hpast]

/-- C8 witness: 11:00 is rejected when the clock reads 12:00 that day. -/
theorem create_tool_rejects_past_time_witness :
    handle_create_appointment 0 (wallKey ⟨2026, 3, 15⟩ ⟨12, 0⟩)
      (fun _ => .error (.other "unreachable")) "42" "2026-03-15" "11:00"
      = ({ success := false, error := true,
           message := "Appointment time is in the past. Please provide a future date and time." },
         false) :=
  create_tool_rejects_past_time 0 (wallKey ⟨2026, 3, 15⟩ ⟨12, 0⟩)
    (fun _ => .error (.other "unreachable"))
    "42" "2026-03-15" "11:00" ⟨2026, 3, 15⟩ ⟨11, 0⟩ rfl rfl rfl (by decide)

/-- C9: the reference equations of the formatting and scraping helpers, and
the single-word rule: any single all-letter word followed by a space and a
well-formed, calendar-valid parenthesized date yields no match from
`parse_name_dob` (first and last name are both required). -/
theorem formatting_helpers_reference_equations (w t : List Char) (mo d y : Nat)
    (dob : Date)
    (hw1 : w ≠ []) (hw : ∀ c ∈ w, isAsciiAlpha c = true)
    (ht : matchDatePart (' ' :: t) = some (mo, d, y))
    (hmk : mkValidDate y mo d = some dob) :
    date_to_us_long ⟨2026, 3, 22⟩ = "March 22, 2026"
    ∧ time_to_12h ⟨14, 30⟩ = "2:30 PM"
    ∧ time_to_12h ⟨0, 0⟩ = "12:00 AM"
    ∧ time_to_12h ⟨12, 0⟩ = "12:00 PM"
    ∧ parse_name_dob "Marc Camps (5/18/2003)"
        = .ok (some ("Marc", "Camps", ⟨2003, 5, 18⟩))
    ∧ parse_name_dob (String.mk (w ++ ' ' :: t)) = .ok none :=
  ⟨rfl, rfl, rfl, rfl, rfl, parse_single_word w t mo d y dob hw1 hw ht hmk⟩

/-- C9 witness: the single-word rule at the concrete input of the spec. -/
theorem formatting_helpers_reference_equations_witness :
    parse_name_dob "Madonna (5/18/2003)" = .ok none :=
  (formatting_helpers_reference_equations "Madonna".data "(5/18/2003)".data
    5 18 2003 ⟨2003, 5, 18⟩ (by decide) (by decide) (by decide) (by decide)).2.2.2.2.2

/-- C10: `resolve_timezone` is total by construction; an invalid zone name
falls back to UTC (so both the tool handler and the GraphQL client then hold
UTC, and the past-time comparison is performed with a zero offset), while a
valid name resolves to its ZoneInfo. -/
theorem resolve_timezone_total_fallback (v : String → Bool) (zo : String → Int)
    (name : String) (nowUtcKey : Int)
    (svc : AppointmentRequest → Except PyExc Appointment) (pid ds ts : String) :
    (v name = false →
        resolve_timezone v name = .utc
        ∧ graphqlClientClinicTz v name = .utc
        ∧ TZInfo.offsetMinutes zo (toolHandlersClinicTz v name) = 0
        ∧ handle_create_appointment
            (TZInfo.offsetMinutes zo (toolHandlersClinicTz v name)) nowUtcKey svc pid ds ts
          = handle_create_appointment 0 nowUtcKey svc pid ds ts)
    ∧ (v name = true → resolve_timezone v name = .zoneinfo name) := by
  constructor
  · intro h
    have h1 : resolve_timezone v name = .utc := by simp [resolve_timezone, h]
    have h2 : TZInfo.offsetMinutes zo (toolHandlersClinicTz v name) = 0 := by
      simp [toolHandlersClinicTz, h1, TZInfo.offsetMinutes]
    refine ⟨h1, ?_, h2, ?_⟩
    · simpa [graphqlClientClinicTz] using h1
    · rw [h2]
  · intro h
    simp [resolve_timezone, h]

/-- C10 witness: fallback and pass-through at concrete names. -/
theorem resolve_timezone_total_fallback_witness :
    resolve_timezone (fun _ => false) "Not/AZone" = .utc
    ∧ resolve_timezone (fun _ => true) "America/New_York" = .zoneinfo "America/New_York" :=
  ⟨((resolve_timezone_total_fallback (fun _ => false) (fun _ => 0) "Not/AZone" 0
      (fun _ => .error (.other "x")) "" "" "").1 rfl).1,
   (resolve_timezone_total_fallback (fun _ => true) (fun _ => 0) "America/New_York" 0
      (fun _ => .error (.other "x")) "" "" "").2 rfl⟩

end Prosper
